import Mathlib

/-
Verification of the digital-object-repo core: ingestion length budgeting,
embedding-failure discipline, usage metering, document search, and notebook
question answering.  The definitions below are a shallow embedding of the
JavaScript sources (routes/documents.js, routes/texts.js, routes/urls.js,
routes/notebooks.js, services/openai.js, init-db.js): SQL statements become
list operations, timestamps become a natural-number clock that strictly
increases between statements, and the external OpenAI services become
explicit oracle functions passed as parameters.
-/

namespace DOR

/-- Max characters to store in the database (routes/documents.js). -/
def MAX_DB_STORAGE_LENGTH : Nat := 25000

/-- Max characters to use for the embedding (routes/documents.js, texts.js). -/
def MAX_EMBEDDING_LENGTH : Nat := 15000

/-- JavaScript `s.substring(0, n)`. -/
def jsSubstring (s : String) (n : Nat) : String := ⟨s.data.take n⟩

/-- JavaScript falsiness of a string: `!s` is true exactly for the empty string. -/
def jsEmpty (s : String) : Bool := s.data.isEmpty

/-- `text.replace` of every newline by a space, as done by the embedding
client before contacting the API (services/openai.js, getEmbedding). -/
def normalizeNewlines (s : String) : String :=
  ⟨s.data.map (fun c => if c = '\n' then ' ' else c)⟩

/-- The embedding client (services/openai.js, getEmbedding), over an oracle
`api` for the external service.  Returns the resulting vector (none on
failure) and whether the external API was contacted: on empty input the
client returns null without any external call. -/
def getEmbedding (api : String → Option (List ℚ)) (text : String) :
    Option (List ℚ) × Bool :=
  if jsEmpty text then (none, false)
  else (api (normalizeNewlines text), true)

/-- One entry of the static price table: rates per 1000 tokens; the output
rate is absent for the embedding model. -/
structure ModelPricing where
  input : Option ℚ
  output : Option ℚ
deriving DecidableEq, Repr

/-- Static per-model price table (services/openai.js, PRICING). -/
def PRICING (model : String) : Option ModelPricing :=
  if model = "text-embedding-ada-002" then some ⟨some (1 / 10000), none⟩
  else if model = "gpt-4o-mini" then some ⟨some (15 / 100000), some (6 / 10000)⟩
  else none

/-- Cost computed by logApiUsage (services/openai.js): known models pay
`tokens/1000` times each rate, a missing rate counts as 0, unknown models
cost 0. -/
def computeCost (model : String) (promptTokens completionTokens : Nat) : ℚ :=
  match PRICING model with
  | some pr =>
      ((promptTokens : ℚ) / 1000) * pr.input.getD 0 +
        ((completionTokens : ℚ) / 1000) * pr.output.getD 0
  | none => 0

/-- One row of the api_usage_logs table. -/
structure UsageRow where
  model : String
  promptTokens : Nat
  completionTokens : Nat
  totalTokens : Nat
  cost : ℚ
deriving DecidableEq, Repr

/-- logApiUsage: append one usage row to the ledger (append-only). -/
def logApiUsage (ledger : List UsageRow) (model : String)
    (promptTokens completionTokens totalTokens : Nat) : List UsageRow :=
  ledger ++
    [⟨model, promptTokens, completionTokens, totalTokens,
      computeCost model promptTokens completionTokens⟩]

/-- The distinct error kinds surfaced at the request boundary. -/
inductive ApiError where
  | validation
  | extractionFailure
  | scrapeFailure
  | embeddingFailure
  | generationFailure
  | conflict
  | notFound
  | storeFailure
deriving DecidableEq, Repr

/-- Trace of one ingestion request: the error (if any), how many times the
route invoked the embedding-client function, how many external embedding
API requests were made, the text handed to the embedding client, and the
(title, content) pair persisted as a Content Item (none when nothing was
written). -/
structure IngestTrace where
  error : Option ApiError
  clientCalls : Nat
  apiCalls : Nat
  embedInput : Option String
  inserted : Option (String × String)
deriving DecidableEq, Repr

/-- An uploaded file, after multipart decoding: a PDF arrives as the list
of its pages' joined text items, any other file as its utf-8 text. -/
inductive FileData where
  | pdf (filename : String) (pages : List String)
  | other (filename : String) (text : String)
deriving DecidableEq, Repr

/-- The PDF page loop of POST /documents (routes/documents.js): pages are
concatenated with a trailing newline each, stopping early once the
accumulated text exceeds MAX_DB_STORAGE_LENGTH. -/
def extractPdfText (acc : String) : List String → String
  | [] => acc
  | p :: rest =>
      let acc' := acc ++ p ++ "\n"
      if MAX_DB_STORAGE_LENGTH < acc'.length then acc'
      else extractPdfText acc' rest

/-- The fullContent variable of POST /documents: extracted text capped at
MAX_DB_STORAGE_LENGTH characters. -/
def fullContentOf : FileData → String
  | .pdf _ pages => jsSubstring (extractPdfText "" pages) MAX_DB_STORAGE_LENGTH
  | .other _ text => jsSubstring text MAX_DB_STORAGE_LENGTH

/-- The filename of an upload, used as the item's title. -/
def filenameOf : FileData → String
  | .pdf fn _ => fn
  | .other fn _ => fn

/-- POST /documents (routes/documents.js): file upload ingestion. -/
def ingestFile (api : String → Option (List ℚ)) : Option FileData → IngestTrace
  | none => ⟨some .validation, 0, 0, none, none⟩
  | some fd =>
      let fullContent := fullContentOf fd
      if jsEmpty fullContent then ⟨some .extractionFailure, 0, 0, none, none⟩
      else
        let truncatedForEmbedding := jsSubstring fullContent MAX_EMBEDDING_LENGTH
        let r := getEmbedding api truncatedForEmbedding
        let a := if r.2 then 1 else 0
        match r.1 with
        | none => ⟨some .embeddingFailure, 1, a, some truncatedForEmbedding, none⟩
        | some _ => ⟨none, 1, a, some truncatedForEmbedding, some (filenameOf fd, fullContent)⟩

/-- POST /texts (routes/texts.js): inline text-block ingestion.  Note the
INSERT persists the submitted content itself, not the embedding truncation. -/
def ingestText (api : String → Option (List ℚ)) (title content : String) : IngestTrace :=
  if jsEmpty title || jsEmpty content then ⟨some .validation, 0, 0, none, none⟩
  else
    let truncatedForEmbedding := jsSubstring content MAX_EMBEDDING_LENGTH
    let r := getEmbedding api truncatedForEmbedding
    let a := if r.2 then 1 else 0
    match r.1 with
    | none => ⟨some .embeddingFailure, 1, a, some truncatedForEmbedding, none⟩
    | some _ => ⟨none, 1, a, some truncatedForEmbedding, some (title, content)⟩

/-- POST /urls (routes/urls.js): URL ingestion.  The scraper result is an
oracle input (none when scraping failed); on success the route truncates the
scraped content to 15000 characters and persists that truncation. -/
def ingestUrl (api : String → Option (List ℚ))
    (scraped : Option (String × String)) (url : String) : IngestTrace :=
  if jsEmpty url then ⟨some .validation, 0, 0, none, none⟩
  else
    match scraped with
    | none => ⟨some .scrapeFailure, 0, 0, none, none⟩
    | some (title, content) =>
        let truncatedContent := jsSubstring content 15000
        let r := getEmbedding api truncatedContent
        let a := if r.2 then 1 else 0
        match r.1 with
        | none => ⟨some .embeddingFailure, 1, a, some truncatedContent, none⟩
        | some _ =>
            ⟨none, 1, a, some truncatedContent,
              some (if jsEmpty title then url else title, truncatedContent)⟩

/-- The input rate a recorded call is billed at: the table entry when the
model is priced, with a missing rate reading as 0. -/
def inputRate (model : String) : ℚ :=
  match PRICING model with
  | some pr => pr.input.getD 0
  | none => 0

/-- The output rate a recorded call is billed at. -/
def outputRate (model : String) : ℚ :=
  match PRICING model with
  | some pr => pr.output.getD 0
  | none => 0

/-- One row of the documents table (init-db.js): content and embedding are
nullable; the embedding column holds a 1536-wide vector, modelled as a
rational list.  Timestamps are clock values. -/
structure Document where
  id : Nat
  title : String
  content : String
  embedding : Option (List ℚ)
  createdAt : Nat
deriving DecidableEq, Repr

/-- One row of the notebooks table (init-db.js). -/
structure Notebook where
  id : Nat
  title : String
  content : String
  updatedAt : Nat
deriving DecidableEq, Repr

/-- The relational store: documents, notebooks, the notebook_documents join
table as (notebook id, document id) pairs, and the current clock value; the
clock advances by one at every executed SQL statement, modelling strictly
increasing CURRENT_TIMESTAMP readings. -/
structure Store where
  documents : List Document
  notebooks : List Notebook
  memberships : List (Nat × Nat)
  now : Nat
deriving DecidableEq, Repr

/-- A row of the POST /documents/search response (routes/documents.js):
id, title, created_at and the raw vector distance; the distance is NULL
(none) for a document with no embedding. -/
structure SearchRow where
  id : Nat
  title : String
  createdAt : Nat
  distance : Option ℚ
deriving DecidableEq, Repr

/-- ORDER BY distance ASC with Postgres default NULLS LAST. -/
def nullsLastLE : Option ℚ → Option ℚ → Prop
  | some a, some b => a ≤ b
  | none, some _ => False
  | _, none => True

instance : DecidableRel nullsLastLE := fun a b =>
  match a, b with
  | some x, some y => inferInstanceAs (Decidable (x ≤ y))
  | none, some _ => inferInstanceAs (Decidable False)
  | some _, none => inferInstanceAs (Decidable True)
  | none, none => inferInstanceAs (Decidable True)

instance : IsTotal (Option ℚ) nullsLastLE where
  total a b := by
    cases a <;> cases b <;> simp [nullsLastLE]
    exact le_total _ _

instance : IsTrans (Option ℚ) nullsLastLE where
  trans a b c hab hbc := by
    cases a <;> cases b <;> cases c <;> simp_all [nullsLastLE]
    exact le_trans hab hbc

/-- Ordering of search rows by distance (ascending, NULLS LAST). -/
def searchRowLE (a b : SearchRow) : Prop := nullsLastLE a.distance b.distance

instance : DecidableRel searchRowLE := fun a b =>
  inferInstanceAs (Decidable (nullsLastLE a.distance b.distance))

instance : IsTotal SearchRow searchRowLE where
  total a b := IsTotal.total (r := nullsLastLE) a.distance b.distance

instance : IsTrans SearchRow searchRowLE where
  trans _ _ _ hab hbc := IsTrans.trans (r := nullsLastLE) _ _ _ hab hbc

/-- POST /documents/search (routes/documents.js): embed the raw query, then
a single vector nearest-neighbour query ORDER BY (embedding <=> q) ASC
LIMIT 5 over all documents, returning id, title, created_at, distance.
The request body's limit is never read and there is no lexical leg.
`dist` is the oracle for the pgvector distance operator. -/
def searchDocuments (api : String → Option (List ℚ))
    (dist : List ℚ → List ℚ → ℚ) (docs : List Document)
    (query : String) : Except ApiError (List SearchRow) :=
  if jsEmpty query then .error .validation
  else
    match (getEmbedding api query).1 with
    | none => .error .embeddingFailure
    | some qe =>
        .ok ((List.insertionSort searchRowLE
          (docs.map (fun d =>
            ⟨d.id, d.title, d.createdAt, d.embedding.map (fun e => dist e qe)⟩))).take 5)

/-- The touch statement UPDATE notebooks SET updated_at = CURRENT_TIMESTAMP
WHERE id = nbId, executed at clock value t. -/
def touchNotebooks (l : List Notebook) (nbId t : Nat) : List Notebook :=
  l.map (fun n => if n.id = nbId then { n with updatedAt := t } else n)

/-- POST /notebooks/:notebookId/documents (routes/notebooks.js): INSERT the
membership row, then touch the notebook.  A duplicate pair violates the
join table's primary key, the INSERT throws, the route answers 409 and the
touch statement is never reached; a missing endpoint violates a foreign key
and surfaces as a generic 500.  Returns the outcome and the store after the
request. -/
def addDocumentToNotebook (st : Store) (nbId docId : Nat) :
    Except ApiError Unit × Store :=
  if (nbId, docId) ∈ st.memberships then (.error .conflict, st)
  else if st.notebooks.all (fun n => n.id != nbId) then (.error .storeFailure, st)
  else if st.documents.all (fun d => d.id != docId) then (.error .storeFailure, st)
  else
    let st1 := { st with memberships := st.memberships ++ [(nbId, docId)], now := st.now + 1 }
    let st2 := { st1 with notebooks := touchNotebooks st1.notebooks nbId st1.now, now := st1.now + 1 }
    (.ok (), st2)

/-- DELETE /notebooks/:notebookId/documents/:documentId (routes/notebooks.js):
DELETE the membership row; 404 when no row matched, otherwise touch the
notebook. -/
def removeDocumentFromNotebook (st : Store) (nbId docId : Nat) :
    Except ApiError Unit × Store :=
  if (nbId, docId) ∈ st.memberships then
    let st1 := { st with
      memberships := st.memberships.filter (fun p => !(p == (nbId, docId))),
      now := st.now + 1 }
    let st2 := { st1 with notebooks := touchNotebooks st1.notebooks nbId st1.now, now := st1.now + 1 }
    (.ok (), st2)
  else (.error .notFound, st)

/-- Ordering of a notebook's document list: created_at DESC. -/
def createdDescLE (a b : Document) : Prop := b.createdAt ≤ a.createdAt

instance : DecidableRel createdDescLE := fun a b =>
  inferInstanceAs (Decidable (b.createdAt ≤ a.createdAt))

instance : IsTotal Document createdDescLE where
  total a b := le_total b.createdAt a.createdAt

instance : IsTrans Document createdDescLE where
  trans _ _ _ hab hbc := le_trans hbc hab

/-- GET /notebooks/:id (routes/notebooks.js): the notebook row plus the
documents joined through notebook_documents, ordered by created_at DESC. -/
def getNotebook (st : Store) (nbId : Nat) : Option (Notebook × List Document) :=
  match st.notebooks.find? (fun n => n.id == nbId) with
  | none => none
  | some nb =>
      some (nb, List.insertionSort createdDescLE
        (st.documents.filter (fun d => st.memberships.contains (nbId, d.id))))

/-- A row of the notebook Q&A retrieval query: the SQL selects title,
content and similarity = 1 - distance; docId and distance are carried
alongside for specification purposes (they identify the joined documents
row and the ORDER BY key). -/
structure ScoredDoc where
  docId : Nat
  title : String
  content : String
  distance : ℚ
  similarity : ℚ
deriving DecidableEq, Repr

/-- Ordering of retrieved documents by vector distance, ascending. -/
def scoredLE (a b : ScoredDoc) : Prop := a.distance ≤ b.distance

instance : DecidableRel scoredLE := fun a b =>
  inferInstanceAs (Decidable (a.distance ≤ b.distance))

instance : IsTotal ScoredDoc scoredLE where
  total a b := le_total a.distance b.distance

instance : IsTrans ScoredDoc scoredLE where
  trans _ _ _ hab hbc := le_trans hab hbc

/-- The retrieval query of POST /notebooks/:id/query (routes/notebooks.js):
members of the notebook whose embedding IS NOT NULL, scored with
similarity = 1 - distance, ORDER BY distance ASC, LIMIT 5. -/
def retrieveTopDocs (dist : List ℚ → List ℚ → ℚ) (qe : List ℚ)
    (st : Store) (nbId : Nat) : List ScoredDoc :=
  (List.insertionSort scoredLE
    (st.documents.filterMap (fun d =>
      match d.embedding with
      | some e =>
          if st.memberships.contains (nbId, d.id) then
            some ⟨d.id, d.title, d.content, dist e qe, 1 - dist e qe⟩
          else none
      | none => none))).take 5

/-- JavaScript `Number.prototype.toFixed(1)`, modelled exactly on rationals:
round to the nearest tenth and print one decimal digit. -/
def toFixed1 (q : ℚ) : String :=
  let n : Int := round (q * 10)
  (if n < 0 then "-" else "") ++ toString (n.natAbs / 10) ++ "." ++ toString (n.natAbs % 10)

/-- One document section of the assembled context
(routes/notebooks.js, step 4 of the query handler). -/
def renderDoc (d : ScoredDoc) : String :=
  "Document: " ++ d.title ++ " (Similarity: " ++ toFixed1 (d.similarity * 100) ++
    "%)\nContent:\n" ++ d.content ++ "\n\n---\n\n"

/-- The context accumulation loop: start from the notes header and append
each retrieved document's section. -/
def buildContext (notes : String) (docs : List ScoredDoc) : String :=
  docs.foldl (fun acc d => acc ++ renderDoc d) ("Notebook Notes:\n" ++ notes ++ "\n\n---\n\n")

instance {ε α : Type} [DecidableEq ε] [DecidableEq α] : DecidableEq (Except ε α) := fun a b =>
  match a, b with
  | .error x, .error y =>
      if h : x = y then .isTrue (by rw [h]) else .isFalse (by simp [h])
  | .error _, .ok _ => .isFalse (by simp)
  | .ok _, .error _ => .isFalse (by simp)
  | .ok x, .ok y =>
      if h : x = y then .isTrue (by rw [h]) else .isFalse (by simp [h])

/-- Trace of one POST /notebooks/:id/query request: the outcome (answer or
error), the number of embedding-client invocations, the number of external
embedding API requests, and the context handed to the language model, if
the request got that far. -/
structure QueryTrace where
  result : Except ApiError String
  embedCalls : Nat
  apiCalls : Nat
  contextSent : Option String
deriving DecidableEq, Repr

/-- POST /notebooks/:id/query (routes/notebooks.js): validate the question,
embed it, fetch the notebook (404 only after the embedding attempt),
retrieve the top 5 members, build the context and ask the answer service
(an oracle taking question and context). -/
def queryNotebook (api : String → Option (List ℚ)) (dist : List ℚ → List ℚ → ℚ)
    (answerSvc : String → String → Option String) (st : Store) (nbId : Nat)
    (question : String) : QueryTrace :=
  if jsEmpty question then ⟨.error .validation, 0, 0, none⟩
  else
    let r := getEmbedding api question
    let a := if r.2 then 1 else 0
    match r.1 with
    | none => ⟨.error .embeddingFailure, 1, a, none⟩
    | some qe =>
        match st.notebooks.find? (fun n => n.id == nbId) with
        | none => ⟨.error .notFound, 1, a, none⟩
        | some nb =>
            let docs := retrieveTopDocs dist qe st nbId
            let context := buildContext nb.content docs
            match answerSvc question context with
            | none => ⟨.error .generationFailure, 1, a, some context⟩
            | some ans => ⟨.ok ans, 1, a, some context⟩

/-! ### General lemmas about the embedded primitives -/

theorem jsSubstring_length (s : String) (n : Nat) :
    (jsSubstring s n).length = min n s.length :=
  List.length_take n s.data

theorem jsEmpty_iff (s : String) : jsEmpty s = true ↔ s = "" := by
  constructor
  · intro h
    cases s with
    | mk l =>
        cases l with
        | nil => decide
        | cons c cs => simp [jsEmpty] at h
  · intro h
    subst h
    decide

theorem jsEmpty_eq_false_of_length {s : String} (h : 0 < s.length) :
    jsEmpty s = false := by
  cases s with
  | mk l =>
      cases l with
      | nil => simp [String.length] at h
      | cons c cs => simp [jsEmpty]

theorem getEmbedding_none (api : String → Option (List ℚ))
    (h : ∀ s, api s = none) (text : String) :
    (getEmbedding api text).1 = none := by
  unfold getEmbedding
  split <;> simp [h]

theorem extractPdfText_long (pages : List String) (acc : String)
    (h : MAX_DB_STORAGE_LENGTH < acc.length + (pages.map (fun p => p.length + 1)).sum) :
    MAX_DB_STORAGE_LENGTH < (extractPdfText acc pages).length := by
  induction pages generalizing acc with
  | nil =>
      simp only [List.map_nil, List.sum_nil, Nat.add_zero] at h
      simpa [extractPdfText] using h
  | cons p rest ih =>
      simp only [extractPdfText]
      split
      · assumption
      · apply ih
        have hnl : ( "\n" : String).length = 1 := rfl
        rw [String.length_append, String.length_append, hnl]
        simp only [List.map_cons, List.sum_cons] at h
        omega

theorem ingestFile_inserted (api : String → Option (List ℚ)) (fd : FileData) :
    ∀ r ∈ (ingestFile api (some fd)).inserted, r = (filenameOf fd, fullContentOf fd) := by
  intro r hr
  simp only [ingestFile] at hr
  split at hr
  · simp at hr
  · split at hr
    · simp at hr
    · simp at hr
      exact hr.symm

theorem ingestText_inserted (api : String → Option (List ℚ)) (title content : String) :
    ∀ r ∈ (ingestText api title content).inserted, r = (title, content) := by
  intro r hr
  simp only [ingestText] at hr
  split at hr
  · simp at hr
  · split at hr
    · simp at hr
    · simp at hr
      exact hr.symm

theorem ingestUrl_inserted (api : String → Option (List ℚ)) (t c url : String) :
    ∀ r ∈ (ingestUrl api (some (t, c)) url).inserted,
      r = (if jsEmpty t then url else t, jsSubstring c 15000) := by
  intro r hr
  simp only [ingestUrl] at hr
  split at hr
  · simp at hr
  · split at hr
    · simp at hr
    · simp at hr
      exact hr.symm

theorem ingestFile_embedInput (api : String → Option (List ℚ)) (fd : Option FileData) :
    ∀ s ∈ (ingestFile api fd).embedInput, s.length ≤ MAX_EMBEDDING_LENGTH := by
  intro s hs
  cases fd with
  | none => simp [ingestFile] at hs
  | some fd =>
      simp only [ingestFile] at hs
      split at hs
      · simp at hs
      · split at hs <;>
          · simp at hs
            rw [← hs, jsSubstring_length]
            exact Nat.min_le_left _ _

theorem ingestText_embedInput (api : String → Option (List ℚ)) (title content : String) :
    ∀ s ∈ (ingestText api title content).embedInput, s.length ≤ MAX_EMBEDDING_LENGTH := by
  intro s hs
  simp only [ingestText] at hs
  split at hs
  · simp at hs
  · split at hs <;>
      · simp at hs
        rw [← hs, jsSubstring_length]
        exact Nat.min_le_left _ _

theorem ingestUrl_embedInput (api : String → Option (List ℚ))
    (scraped : Option (String × String)) (url : String) :
    ∀ s ∈ (ingestUrl api scraped url).embedInput, s.length ≤ MAX_EMBEDDING_LENGTH := by
  intro s hs
  simp only [ingestUrl] at hs
  split at hs
  · simp at hs
  · cases scraped with
    | none => simp at hs
    | some tc =>
        simp only at hs
        split at hs <;>
          · simp at hs
            rw [← hs, jsSubstring_length]
            exact Nat.min_le_left _ _

/-! ### Claim theorems -/

/-- A concrete extracted text of 25001 characters, one over STORAGE_LIMIT. -/
def longA : String := ⟨List.replicate 25001 'a'⟩

theorem longA_length : longA.length = 25001 := by
  show (List.replicate 25001 'a').length = 25001
  exact List.length_replicate 25001 'a'

/-- An embedding service that always succeeds. -/
def embedOk : String → Option (List ℚ) := fun _ => some [1]

/-- Claim C2 counterexample: ingesting a 25001-character inline text block
persists content of length 25001, not STORAGE_LIMIT = 25000 — the text
path performs no storage truncation. -/
theorem C2_counterexample :
    ((ingestText embedOk "t" longA).inserted.map (fun r => r.2.length)) = some 25001 ∧
    (25001 : Nat) ≠ MAX_DB_STORAGE_LENGTH := by
  have h0 : jsEmpty "t" = false := by decide
  have h1 : jsEmpty longA = false :=
    jsEmpty_eq_false_of_length (by rw [longA_length]; decide)
  have h2 : jsEmpty (jsSubstring longA MAX_EMBEDDING_LENGTH) = false :=
    jsEmpty_eq_false_of_length (by rw [jsSubstring_length, longA_length]; decide)
  constructor
  · simp [ingestText, h0, h1, getEmbedding, h2, embedOk, longA_length]
  · decide

/-- Claim C2 amended: only the file-upload path caps persisted content at
exactly STORAGE_LIMIT when the extracted text exceeds it (both for PDFs,
whose page loop stops early, and for other files); the inline-text path
persists the submitted content unchanged, and the URL path persists the
15000-character embedding truncation; on every path the text handed to the
embedding client has length at most EMBED_LIMIT, and
EMBED_LIMIT ≤ STORAGE_LIMIT. -/
theorem C2_amended_truncation (api : String → Option (List ℚ))
    (fnO fnP text title content urlTitle url : String) (pages : List String)
    (fd : Option FileData) (scraped : Option (String × String))
    (hOther : MAX_DB_STORAGE_LENGTH < text.length)
    (hPdf : MAX_DB_STORAGE_LENGTH < (pages.map (fun p => p.length + 1)).sum) :
    (∀ r ∈ (ingestFile api (some (.other fnO text))).inserted,
      r.2.length = MAX_DB_STORAGE_LENGTH) ∧
    (∀ r ∈ (ingestFile api (some (.pdf fnP pages))).inserted,
      r.2.length = MAX_DB_STORAGE_LENGTH) ∧
    (∀ r ∈ (ingestText api title content).inserted, r.2 = content) ∧
    (∀ r ∈ (ingestUrl api (some (urlTitle, content)) url).inserted,
      r.2.length = min 15000 content.length) ∧
    (∀ s ∈ (ingestFile api fd).embedInput, s.length ≤ MAX_EMBEDDING_LENGTH) ∧
    (∀ s ∈ (ingestText api title content).embedInput, s.length ≤ MAX_EMBEDDING_LENGTH) ∧
    (∀ s ∈ (ingestUrl api scraped url).embedInput, s.length ≤ MAX_EMBEDDING_LENGTH) ∧
    MAX_EMBEDDING_LENGTH ≤ MAX_DB_STORAGE_LENGTH := by
  refine ⟨?_, ?_, ?_, ?_, ingestFile_embedInput api fd,
    ingestText_embedInput api title content, ingestUrl_embedInput api scraped url,
    by decide⟩
  · intro r hr
    rw [ingestFile_inserted api _ r hr]
    show (fullContentOf (.other fnO text)).length = MAX_DB_STORAGE_LENGTH
    simp only [fullContentOf]
    rw [jsSubstring_length]
    omega
  · intro r hr
    rw [ingestFile_inserted api _ r hr]
    show (fullContentOf (.pdf fnP pages)).length = MAX_DB_STORAGE_LENGTH
    simp only [fullContentOf]
    rw [jsSubstring_length]
    have := extractPdfText_long pages "" (by simpa using hPdf)
    omega
  · intro r hr
    rw [ingestText_inserted api title content r hr]
  · intro r hr
    rw [ingestUrl_inserted api urlTitle content url r hr]
    exact jsSubstring_length content 15000

/-- Witness for the amended C2 on concrete over-limit inputs. -/
theorem C2_amended_truncation_witness :
    MAX_DB_STORAGE_LENGTH < longA.length ∧
    MAX_DB_STORAGE_LENGTH < ([longA].map (fun p => p.length + 1)).sum ∧
    ((∀ r ∈ (ingestFile embedOk (some (.other "f.txt" longA))).inserted,
        r.2.length = MAX_DB_STORAGE_LENGTH) ∧
      (∀ r ∈ (ingestFile embedOk (some (.pdf "g.pdf" [longA]))).inserted,
        r.2.length = MAX_DB_STORAGE_LENGTH) ∧
      (∀ r ∈ (ingestText embedOk "t" "c").inserted, r.2 = "c") ∧
      (∀ r ∈ (ingestUrl embedOk (some ("p", "c")) "http://x").inserted,
        r.2.length = min 15000 ("c").length) ∧
      (∀ s ∈ (ingestFile embedOk (some (.other "f.txt" longA))).embedInput,
        s.length ≤ MAX_EMBEDDING_LENGTH) ∧
      (∀ s ∈ (ingestText embedOk "t" "c").embedInput, s.length ≤ MAX_EMBEDDING_LENGTH) ∧
      (∀ s ∈ (ingestUrl embedOk (some ("p", "c")) "http://x").embedInput,
        s.length ≤ MAX_EMBEDDING_LENGTH) ∧
      MAX_EMBEDDING_LENGTH ≤ MAX_DB_STORAGE_LENGTH) :=
  ⟨by rw [longA_length]; decide,
   by simp only [List.map_cons, List.map_nil, List.sum_cons, List.sum_nil, longA_length]; decide,
   C2_amended_truncation embedOk "f.txt" "g.pdf" longA "t" "c" "p" "http://x" [longA]
     (some (.other "f.txt" longA)) (some ("p", "c"))
     (by rw [longA_length]; decide)
     (by simp only [List.map_cons, List.map_nil, List.sum_cons, List.sum_nil, longA_length]; decide)⟩

/-- Claim C6 counterexample: a URL scrape yielding empty text does lead the
route to invoke the embedding-client function (with the empty string), so
the ingestion does not avoid the embedding client; the client itself then
returns null without contacting the external API and the request fails. -/
theorem C6_counterexample :
    (ingestUrl embedOk (some ("t", "")) "http://x").clientCalls = 1 ∧
    (ingestUrl embedOk (some ("t", "")) "http://x").apiCalls = 0 ∧
    (ingestUrl embedOk (some ("t", "")) "http://x").inserted = none ∧
    (ingestUrl embedOk (some ("t", "")) "http://x").error = some .embeddingFailure := by
  decide

/-- Claim C6 amended: ingestion of empty extracted text always fails with an
error, never contacts the external embedding API, and never creates a
Content Item; the file-upload path rejects before invoking the embedding
client at all, while the URL path invokes the client with the empty string
and the client short-circuits to null without an external call. -/
theorem C6_amended_empty_extraction (api : String → Option (List ℚ))
    (fd : FileData) (t url : String)
    (hFile : fullContentOf fd = "") :
    ingestFile api (some fd) = ⟨some .extractionFailure, 0, 0, none, none⟩ ∧
    ((ingestUrl api (some (t, "")) url).apiCalls = 0 ∧
      (ingestUrl api (some (t, "")) url).inserted = none ∧
      (ingestUrl api (some (t, "")) url).error.isSome ∧
      (ingestUrl api (some (t, "")) url).clientCalls ≤ 1) := by
  have hemp : jsEmpty ( "" : String) = true := by decide
  have htr : jsEmpty (jsSubstring "" 15000) = true := by decide
  constructor
  · simp [ingestFile, hFile, hemp]
  · simp only [ingestUrl]
    split
    · simp
    · simp [getEmbedding, htr]

/-- Witness for the amended C6 on an empty file and an empty scrape. -/
theorem C6_amended_empty_extraction_witness :
    fullContentOf (.other "f.txt" "") = "" ∧
    (ingestFile embedOk (some (.other "f.txt" "")) =
        ⟨some .extractionFailure, 0, 0, none, none⟩ ∧
      ((ingestUrl embedOk (some ("t", "")) "http://y").apiCalls = 0 ∧
        (ingestUrl embedOk (some ("t", "")) "http://y").inserted = none ∧
        (ingestUrl embedOk (some ("t", "")) "http://y").error.isSome ∧
        (ingestUrl embedOk (some ("t", "")) "http://y").clientCalls ≤ 1)) :=
  ⟨by decide, C6_amended_empty_extraction embedOk (.other "f.txt" "") "t" "http://y" (by decide)⟩

/-- An always-successful answer generator, for witnesses. -/
def answerOk : String → String → Option String := fun _ _ => some "ans"

/-- A distance oracle reading off the first vector component. -/
def distHead : List ℚ → List ℚ → ℚ := fun e _ => e.headD 0

/-- The empty store. -/
def emptyStore : Store := ⟨[], [], [], 0⟩

/-- Claim C3 counterexample: querying a nonexistent notebook with a
non-empty question performs an embedding call before the notebook-not-found
rejection — the rejection does not happen before the question is embedded. -/
theorem C3_counterexample :
    (queryNotebook embedOk distHead answerOk emptyStore 1 "q").embedCalls = 1 ∧
    (queryNotebook embedOk distHead answerOk emptyStore 1 "q").result =
      .error .notFound := by
  decide

/-- Claim C3 amended: an empty question is rejected with a validation error
before any embedding attempt, while a nonexistent notebook is rejected with
the distinct not-found error only after the question has been embedded
(exactly one embedding-client call when the embedding succeeds). -/
theorem C3_amended_validation_order (api : String → Option (List ℚ))
    (dist : List ℚ → List ℚ → ℚ) (answerSvc : String → String → Option String)
    (st : Store) (nbId : Nat) (question : String) :
    (jsEmpty question = true →
      queryNotebook api dist answerSvc st nbId question =
        ⟨.error .validation, 0, 0, none⟩) ∧
    (jsEmpty question = false →
      (api (normalizeNewlines question)).isSome →
      st.notebooks.find? (fun n => n.id == nbId) = none →
      (queryNotebook api dist answerSvc st nbId question).result = .error .notFound ∧
      (queryNotebook api dist answerSvc st nbId question).embedCalls = 1) := by
  constructor
  · intro h
    simp [queryNotebook, h]
  · intro hq hsome hnb
    obtain ⟨qe, hqe⟩ := Option.isSome_iff_exists.1 hsome
    simp [queryNotebook, hq, getEmbedding, hqe, hnb]

/-- Witness for the amended C3: empty question on the one hand, missing
notebook on the other. -/
theorem C3_amended_validation_order_witness :
    (jsEmpty "" = true ∧
      queryNotebook embedOk distHead answerOk emptyStore 1 "" =
        ⟨.error .validation, 0, 0, none⟩) ∧
    (jsEmpty "q" = false ∧
      (embedOk (normalizeNewlines "q")).isSome = true ∧
      emptyStore.notebooks.find? (fun n => n.id == 1) = none ∧
      ((queryNotebook embedOk distHead answerOk emptyStore 1 "q").result =
          .error .notFound ∧
        (queryNotebook embedOk distHead answerOk emptyStore 1 "q").embedCalls = 1)) :=
  ⟨⟨by decide,
    (C3_amended_validation_order embedOk distHead answerOk emptyStore 1 "").1 (by decide)⟩,
   ⟨by decide, by decide, by decide,
    (C3_amended_validation_order embedOk distHead answerOk emptyStore 1 "q").2
      (by decide) (by decide) (by decide)⟩⟩

/-- Concatenation of a list of strings, in order. -/
def concatStrings : List String → String
  | [] => ""
  | s :: rest => s ++ concatStrings rest

theorem foldl_append_renderDoc (docs : List ScoredDoc) (init : String) :
    docs.foldl (fun acc d => acc ++ renderDoc d) init =
      init ++ concatStrings (docs.map renderDoc) := by
  induction docs generalizing init with
  | nil => simp [concatStrings]
  | cons d ds ih =>
      simp only [List.foldl_cons, List.map_cons, concatStrings]
      rw [ih, String.append_assoc]

theorem buildContext_eq (notes : String) (docs : List ScoredDoc) :
    buildContext notes docs =
      "Notebook Notes:\n" ++ notes ++ "\n\n---\n\n" ++
        concatStrings (docs.map renderDoc) := by
  rw [buildContext, foldl_append_renderDoc, String.append_assoc, String.append_assoc]

theorem mem_retrieveTopDocs {dist : List ℚ → List ℚ → ℚ} {qe : List ℚ}
    {st : Store} {nbId : Nat} {r : ScoredDoc}
    (h : r ∈ retrieveTopDocs dist qe st nbId) :
    ∃ src ∈ st.documents, ∃ e, src.embedding = some e ∧
      (nbId, src.id) ∈ st.memberships ∧
      r = ⟨src.id, src.title, src.content, dist e qe, 1 - dist e qe⟩ := by
  have h1 : r ∈ List.insertionSort scoredLE
      (st.documents.filterMap (fun d =>
        match d.embedding with
        | some e =>
            if st.memberships.contains (nbId, d.id) then
              some ⟨d.id, d.title, d.content, dist e qe, 1 - dist e qe⟩
            else none
        | none => none)) := List.mem_of_mem_take h
  rw [List.mem_insertionSort] at h1
  obtain ⟨src, hsrc, heq⟩ := List.mem_filterMap.1 h1
  refine ⟨src, hsrc, ?_⟩
  cases hemb : src.embedding with
  | none =>
      rw [hemb] at heq
      simp at heq
  | some e =>
      rw [hemb] at heq
      dsimp only at heq
      split at heq
      · next hm => exact ⟨e, rfl, List.mem_of_elem_eq_true hm, (Option.some_inj.1 heq).symm⟩
      · exact absurd heq (by simp)

/-- Claim C10: every document retrieved for notebook Q&A comes from a
member row whose embedding is non-null; under unique document ids, a member
with a null embedding never appears among the retrieved documents. -/
theorem C10_null_embedding_excluded (dist : List ℚ → List ℚ → ℚ) (qe : List ℚ)
    (st : Store) (nbId : Nat) :
    (∀ r ∈ retrieveTopDocs dist qe st nbId, ∃ src ∈ st.documents,
      (nbId, src.id) ∈ st.memberships ∧ src.embedding.isSome = true ∧
      r.docId = src.id ∧ r.title = src.title ∧ r.content = src.content) ∧
    (st.documents.Pairwise (fun a b => a.id ≠ b.id) →
      ∀ d ∈ st.documents, d.embedding = none →
        ∀ r ∈ retrieveTopDocs dist qe st nbId, r.docId ≠ d.id) := by
  constructor
  · intro r hr
    obtain ⟨src, hsrc, e, hemb, hm, hr2⟩ := mem_retrieveTopDocs hr
    exact ⟨src, hsrc, hm, by simp [hemb], by rw [hr2], by rw [hr2], by rw [hr2]⟩
  · intro hpw d hd hdnone r hr hcontra
    obtain ⟨src, hsrc, e, hemb, _, hr2⟩ := mem_retrieveTopDocs hr
    have hne : src ≠ d := by
      intro hsd
      rw [hsd, hdnone] at hemb
      exact Option.noConfusion hemb
    have hids : src.id ≠ d.id :=
      hpw.forall (fun a b hab => (hab ∘ Eq.symm : b.id ≠ a.id)) hsrc hd hne
    rw [hr2] at hcontra
    exact hids hcontra

/-- A store with one notebook owning a document with an embedding and one
member document whose embedding is null. -/
def st10 : Store :=
  ⟨[⟨2, "doc", "text", some [ 1], 0⟩, ⟨3, "x", "y", none, 1⟩],
    [⟨1, "nb", "notes", 0⟩], [(1, 2), (1, 3)], 5⟩

/-- Evaluation of the retrieval query on st10: only the embedded member
document is returned. -/
theorem st10_retrieve :
    retrieveTopDocs distHead [ 1] st10 1 = [ ⟨2, "doc", "text", 1, 0⟩ ] := by
  simp [retrieveTopDocs, st10, distHead, List.filterMap_cons, List.insertionSort]

/-- Witness for C10: in st10 the retrieved list contains the embedded
member and never the null-embedding member. -/
theorem C10_null_embedding_excluded_witness :
    (⟨2, "doc", "text", 1, 0⟩ : ScoredDoc) ∈ retrieveTopDocs distHead [ 1] st10 1 ∧
    (∃ src ∈ st10.documents, (1, src.id) ∈ st10.memberships ∧
      src.embedding.isSome = true ∧
      (⟨2, "doc", "text", 1, 0⟩ : ScoredDoc).docId = src.id ∧
      (⟨2, "doc", "text", 1, 0⟩ : ScoredDoc).title = src.title ∧
      (⟨2, "doc", "text", 1, 0⟩ : ScoredDoc).content = src.content) ∧
    (⟨2, "doc", "text", 1, 0⟩ : ScoredDoc).docId ≠ 3 :=
  ⟨by simp [st10_retrieve],
   (C10_null_embedding_excluded distHead [ 1] st10 1).1 ⟨2, "doc", "text", 1, 0⟩
     (by simp [st10_retrieve]),
   (C10_null_embedding_excluded distHead [ 1] st10 1).2 (by decide)
     ⟨3, "x", "y", none, 1⟩ (by decide) rfl ⟨2, "doc", "text", 1, 0⟩
     (by simp [st10_retrieve])⟩

/-- A six-document corpus with embeddings at increasing distance from any
query under distHead. -/
def docs6 : List Document :=
  [ ⟨1, "a", "", some [ 1], 10⟩, ⟨2, "b", "", some [ 2], 20⟩, ⟨3, "c", "", some [ 3], 30⟩,
    ⟨4, "d", "", some [ 4], 40⟩, ⟨5, "e", "", some [ 5], 50⟩, ⟨6, "f", "", some [ 6], 60⟩ ]

/-- Claim C1, evaluated on the code: the search route runs one vector
nearest-neighbour query with a hard LIMIT 5 and returns rows carrying the
raw distance — no lexical leg, no reciprocal-rank fusion, no score field,
and the request's limit is never read: on a six-document corpus the sixth
document is dropped regardless of any requested limit. -/
theorem C1_search_is_plain_vector_top5 :
    searchDocuments embedOk distHead docs6 "dogs" =
      .ok [ ⟨1, "a", 10, some 1⟩, ⟨2, "b", 20, some 2⟩, ⟨3, "c", 30, some 3⟩,
        ⟨4, "d", 40, some 4⟩, ⟨5, "e", 50, some 5⟩ ] ∧
    docs6.length = 6 := by
  decide

/-- Claim C8: for every recorded external-model call, the stored cost is
promptTokens/1000 times the model's input rate plus completionTokens/1000
times its output rate from the static price table, and a model absent from
the table is costed exactly 0. -/
theorem C8_usage_cost (ledger : List UsageRow) (model : String)
    (p c t : Nat) :
    logApiUsage ledger model p c t =
      ledger ++ [⟨model, p, c, t,
        (p : ℚ) / 1000 * inputRate model + (c : ℚ) / 1000 * outputRate model⟩] ∧
    (PRICING model = none → computeCost model p c = 0) := by
  constructor
  · unfold logApiUsage computeCost inputRate outputRate
    cases h : PRICING model <;> simp [h]
  · intro h
    simp [computeCost, h]

/-- Witness for C8 at a model name absent from the price table. -/
theorem C8_usage_cost_witness :
    PRICING "mistral-large" = none ∧ computeCost "mistral-large" 5 7 = 0 :=
  ⟨by decide, (C8_usage_cost [] "mistral-large" 5 7 12).2 (by decide)⟩

/-- Claim C9: adding a document already in the notebook fails with a
conflict error and leaves the store, in particular every notebook's
updated_at, unchanged: the touch statement runs only after a successful
membership insert. -/
theorem C9_duplicate_add_conflict (st : Store) (nbId docId : Nat)
    (h : (nbId, docId) ∈ st.memberships) :
    addDocumentToNotebook st nbId docId = (.error .conflict, st) ∧
    (addDocumentToNotebook st nbId docId).2.notebooks = st.notebooks := by
  unfold addDocumentToNotebook
  simp [h]

/-- Witness for C9 on a one-notebook, one-document store. -/
def st9 : Store :=
  ⟨[⟨2, "doc", "text", some [1], 0⟩], [⟨1, "nb", "notes", 0⟩], [(1, 2)], 3⟩

theorem C9_duplicate_add_conflict_witness :
    (1, 2) ∈ st9.memberships ∧
    (addDocumentToNotebook st9 1 2 = (.error .conflict, st9) ∧
      (addDocumentToNotebook st9 1 2).2.notebooks = st9.notebooks) :=
  ⟨by decide, C9_duplicate_add_conflict st9 1 2 (by decide)⟩

theorem find?_touchNotebooks (l : List Notebook) (nbId t : Nat) :
    (touchNotebooks l nbId t).find? (fun n => n.id == nbId) =
      (l.find? (fun n => n.id == nbId)).map (fun n => { n with updatedAt := t }) := by
  induction l with
  | nil => rfl
  | cons a l ih =>
      by_cases h : a.id = nbId
      · simp [touchNotebooks, List.find?_cons, h]
      · simp [touchNotebooks, List.find?_cons, h] at ih ⊢
        exact ih

/-- Claim C7: removing a member document from a notebook succeeds, a
subsequent fetch of the notebook no longer lists any document with that id,
and the notebook's updated_at is strictly newer than before the removal
(the clock hypothesis says the stored timestamp is not in the future). -/
theorem C7_remove_then_fetch (st : Store) (nbId docId : Nat) (nb : Notebook)
    (hfind : st.notebooks.find? (fun n => n.id == nbId) = some nb)
    (hmem : (nbId, docId) ∈ st.memberships)
    (hclock : nb.updatedAt ≤ st.now) :
    ∃ st', removeDocumentFromNotebook st nbId docId = (.ok (), st') ∧
      ∃ nb' docs, getNotebook st' nbId = some (nb', docs) ∧
        (∀ d ∈ docs, d.id ≠ docId) ∧ nb.updatedAt < nb'.updatedAt := by
  have hrem : removeDocumentFromNotebook st nbId docId =
      (.ok (), { st with
        memberships := st.memberships.filter (fun p => !(p == (nbId, docId))),
        notebooks := touchNotebooks st.notebooks nbId (st.now + 1),
        now := st.now + 2 }) := by
    simp [removeDocumentFromNotebook, hmem]
  refine ⟨_, hrem, { nb with updatedAt := st.now + 1 },
    List.insertionSort createdDescLE (st.documents.filter (fun d =>
      (st.memberships.filter (fun p => !(p == (nbId, docId)))).contains (nbId, d.id))),
    ?_, ?_, Nat.lt_succ_of_le hclock⟩
  · simp [getNotebook, find?_touchNotebooks, hfind]
  · intro d hd hid
    rw [List.mem_insertionSort] at hd
    have hmem2 := (List.mem_filter.1 hd).2
    rw [hid] at hmem2
    have hmem3 : (nbId, docId) ∈ st.memberships.filter (fun p => !(p == (nbId, docId))) :=
      List.mem_of_elem_eq_true hmem2
    have := (List.mem_filter.1 hmem3).2
    simp at this

/-- Witness for C7 on the one-notebook, one-document store. -/
theorem C7_remove_then_fetch_witness :
    (st9.notebooks.find? (fun n => n.id == 1) = some ⟨1, "nb", "notes", 0⟩ ∧
      (1, 2) ∈ st9.memberships ∧ (0 : Nat) ≤ st9.now) ∧
    (∃ st', removeDocumentFromNotebook st9 1 2 = (.ok (), st') ∧
      ∃ nb' docs, getNotebook st' 1 = some (nb', docs) ∧
        (∀ d ∈ docs, d.id ≠ 2) ∧ (0 : Nat) < nb'.updatedAt) :=
  ⟨⟨by decide, by decide, by decide⟩,
   C7_remove_then_fetch st9 1 2 ⟨1, "nb", "notes", 0⟩ (by decide) (by decide) (by decide)⟩

/-- Claim C4: when the embedding service fails (returns null), every
ingestion path answers with an error and persists nothing. -/
theorem C4_embedding_failure_no_insert (api : String → Option (List ℚ))
    (h : ∀ s, api s = none) (fd : Option FileData) (title content url : String)
    (scraped : Option (String × String)) :
    ((ingestFile api fd).inserted = none ∧ (ingestFile api fd).error.isSome) ∧
    ((ingestText api title content).inserted = none ∧
      (ingestText api title content).error.isSome) ∧
    ((ingestUrl api scraped url).inserted = none ∧
      (ingestUrl api scraped url).error.isSome) := by
  refine ⟨?_, ?_, ?_⟩
  · cases fd with
    | none => simp [ingestFile]
    | some fd =>
        simp only [ingestFile]
        split
        · simp
        · simp [getEmbedding_none api h]
  · simp only [ingestText]
    split
    · simp
    · simp [getEmbedding_none api h]
  · simp only [ingestUrl]
    split
    · simp
    · cases scraped with
      | none => simp
      | some tc => simp [getEmbedding_none api h]

/-- Witness for C4 with an always-failing embedding service. -/
theorem C4_embedding_failure_no_insert_witness :
    ((ingestFile (fun _ => none) (some (.other "f.txt" "hello"))).inserted = none ∧
      (ingestFile (fun _ => none) (some (.other "f.txt" "hello"))).error.isSome) ∧
    ((ingestText (fun _ => none) "t" "body").inserted = none ∧
      (ingestText (fun _ => none) "t" "body").error.isSome) ∧
    ((ingestUrl (fun _ => none) (some ("page", "scraped")) "http://x").inserted = none ∧
      (ingestUrl (fun _ => none) (some ("page", "scraped")) "http://x").error.isSome) :=
  C4_embedding_failure_no_insert (fun _ => none) (fun _ => rfl)
    (some (.other "f.txt" "hello")) "t" "body" "http://x" (some ("page", "scraped"))

/-- Claim C5: on a successful embedding of a non-empty question against an
existing notebook, the context handed to the language model is the
notebook's own notes section followed by the retrieved documents' sections
in order; at most 5 documents are retrieved, they are sorted by ascending
vector distance, each is rendered as a Document/Similarity/Content section
whose similarity percentage is (1 - distance) * 100, and each comes from a
member document of the notebook with a non-null embedding. -/
theorem C5_context_assembly (api : String → Option (List ℚ))
    (dist : List ℚ → List ℚ → ℚ) (answerSvc : String → String → Option String)
    (st : Store) (nbId : Nat) (question : String) (qe : List ℚ) (nb : Notebook)
    (hq : jsEmpty question = false)
    (hemb : api (normalizeNewlines question) = some qe)
    (hnb : st.notebooks.find? (fun n => n.id == nbId) = some nb) :
    (queryNotebook api dist answerSvc st nbId question).contextSent =
      some ("Notebook Notes:\n" ++ nb.content ++ "\n\n---\n\n" ++
        concatStrings ((retrieveTopDocs dist qe st nbId).map renderDoc)) ∧
    (retrieveTopDocs dist qe st nbId).length ≤ 5 ∧
    List.Sorted scoredLE (retrieveTopDocs dist qe st nbId) ∧
    ((retrieveTopDocs dist qe st nbId).map renderDoc =
      (retrieveTopDocs dist qe st nbId).map (fun d =>
        "Document: " ++ d.title ++ " (Similarity: " ++
          toFixed1 ((1 - d.distance) * 100) ++ "%)\nContent:\n" ++ d.content ++
          "\n\n---\n\n")) ∧
    (∀ d ∈ retrieveTopDocs dist qe st nbId, d.similarity = 1 - d.distance ∧
      ∃ src ∈ st.documents, ∃ e, src.embedding = some e ∧
        (nbId, src.id) ∈ st.memberships ∧
        d = ⟨src.id, src.title, src.content, dist e qe, 1 - dist e qe⟩) := by
  refine ⟨?_, ?_, ?_, ?_, ?_⟩
  · simp only [queryNotebook, getEmbedding, hq, hemb, hnb, buildContext_eq,
      Bool.false_eq_true, if_false]
    split <;> rfl
  · exact List.length_take_le 5 _
  · exact (List.sorted_insertionSort scoredLE _).sublist (List.take_sublist 5 _)
  · refine List.map_congr_left ?_
    intro d hd
    obtain ⟨src, _, e, _, _, hr2⟩ := mem_retrieveTopDocs hd
    rw [hr2]
    rfl
  · intro d hd
    obtain ⟨src, hsrc, e, hemb2, hm, hr2⟩ := mem_retrieveTopDocs hd
    exact ⟨by rw [hr2], src, hsrc, e, hemb2, hm, hr2⟩

/-- Witness for C5 on the st10 store with a one-component embedding. -/
theorem C5_context_assembly_witness :
    (jsEmpty "q" = false ∧
      embedOk (normalizeNewlines "q") = some [ 1] ∧
      st10.notebooks.find? (fun n => n.id == 1) = some ⟨1, "nb", "notes", 0⟩) ∧
    ((queryNotebook embedOk distHead answerOk st10 1 "q").contextSent =
        some ("Notebook Notes:\n" ++ ( "notes" : String) ++ "\n\n---\n\n" ++
          concatStrings ((retrieveTopDocs distHead [ 1] st10 1).map renderDoc)) ∧
      (retrieveTopDocs distHead [ 1] st10 1).length ≤ 5 ∧
      List.Sorted scoredLE (retrieveTopDocs distHead [ 1] st10 1) ∧
      ((retrieveTopDocs distHead [ 1] st10 1).map renderDoc =
        (retrieveTopDocs distHead [ 1] st10 1).map (fun d =>
          "Document: " ++ d.title ++ " (Similarity: " ++
            toFixed1 ((1 - d.distance) * 100) ++ "%)\nContent:\n" ++ d.content ++
            "\n\n---\n\n")) ∧
      (∀ d ∈ retrieveTopDocs distHead [ 1] st10 1, d.similarity = 1 - d.distance ∧
        ∃ src ∈ st10.documents, ∃ e, src.embedding = some e ∧
          (1, src.id) ∈ st10.memberships ∧
          d = ⟨src.id, src.title, src.content, distHead e [ 1], 1 - distHead e [ 1]⟩)) :=
  ⟨⟨by decide, rfl, by decide⟩,
   C5_context_assembly embedOk distHead answerOk st10 1 "q" [ 1] ⟨1, "nb", "notes", 0⟩
     (by decide) rfl (by decide)⟩

end DOR
